import Mathlib

/-!
Shallow embedding of the telemetry aggregation pipeline in
src/state-service/src/telemetry.py: the action classifier, the
regression and latency analyzers, the record assembler and the
reporting entry point.  Dynamically typed Python dicts (action
payloads, attribution entries) are embedded as an explicit value
type; Python exceptions are embedded as Except; external
collaborators (identity file, IP lookup, dataset lookup, transport)
are passed in as an explicit environment value.
-/

namespace Telemetry

/-- Python exception classes that the embedded code can raise. -/
inductive PyError where
  | attributeError
  | typeError
  | valueError
  | keyError
  | ioError
  deriving DecidableEq, Repr

/-- Dynamically typed Python values as they occur in action payloads,
attribution entries and the identity key map. -/
inductive PyVal where
  | none
  | bool (b : Bool)
  | int (n : Int)
  | str (s : String)
  | list (xs : List PyVal)
  | dict (fields : List (String × PyVal))

/-- A Python dict with string keys, as a field list. -/
abbrev PyDict := List (String × PyVal)

/-- Lookup of a key in a dict field list, first match. -/
def lookupField : PyDict → String → Option PyVal
  | [], _ => Option.none
  | (k, v) :: rest, key => if k = key then some v else lookupField rest key

/-- Python d.get(key): the stored value, or None when the key is absent. -/
def pyGet (d : PyDict) (k : String) : PyVal :=
  (lookupField d k).getD PyVal.none

/-- Python d.get(key, default). -/
def pyGetD (d : PyDict) (k : String) (dflt : PyVal) : PyVal :=
  (lookupField d k).getD dflt

/-- Whether a value is the Python None. -/
def PyVal.isNone : PyVal → Bool
  | PyVal.none => true
  | _ => false

/-- Python truthiness of a value. -/
def truthy : PyVal → Bool
  | PyVal.none => false
  | PyVal.bool b => b
  | PyVal.int n => n ≠ 0
  | PyVal.str s => s ≠ ""
  | PyVal.list xs => ¬xs.isEmpty
  | PyVal.dict fs => ¬fs.isEmpty

/-- A value usable as an operand of integer arithmetic in Python: ints,
and bools, which are ints there. -/
def asNum : PyVal → Option Int
  | PyVal.int n => some n
  | PyVal.bool b => some (if b then 1 else 0)
  | _ => Option.none

/-- Python v.get(key) on an arbitrary value: AttributeError unless the
value is a dict. -/
def pyAttrGet (v : PyVal) (k : String) : Except PyError PyVal :=
  match v with
  | PyVal.dict fs => Except.ok (pyGet fs k)
  | _ => Except.error PyError.attributeError

/-- Python v[key] on an arbitrary value: the stored value, KeyError when
the key is absent from a dict, TypeError when the value is not a dict. -/
def pyIndex (v : PyVal) (k : String) : Except PyError PyVal :=
  match v with
  | PyVal.dict fs =>
      match lookupField fs k with
      | some w => Except.ok w
      | Option.none => Except.error PyError.keyError
  | _ => Except.error PyError.typeError

/-- The timestamp_ms attribute of a state: the schema module is external,
so the shape comes from the data model of the spec (optional and
nullable); `other` stands for a non-numeric value on which int() raises. -/
inductive TsVal where
  | missing
  | null
  | num (n : Int)
  | other
  deriving DecidableEq, Repr

/-- Python int(getattr(state, "timestamp_ms", 0)): a missing attribute
falls back to 0, an int passes through, and int() raises on None and on
non-numeric values. -/
def tsForPass : TsVal → Except PyError Int
  | TsVal.missing => Except.ok 0
  | TsVal.null => Except.error PyError.typeError
  | TsVal.num n => Except.ok n
  | TsVal.other => Except.error PyError.typeError

/-- Python isinstance(ts, int) on the timestamp attribute, as used by the
latency analyzer; getattr with default None makes a missing attribute
fall through as well. -/
def tsAsLatency : TsVal → Option Int
  | TsVal.num n => some n
  | _ => Option.none

/-- Modelled from the spec: the tests sub-record of the env snapshot of a
state (the schema module src.store.schema is not in the sources); the
passed count may be absent, the code reads it with .get and default 0. -/
structure TestsSnap where
  passed : Option Int
  deriving DecidableEq, Repr

/-- Modelled from the spec: the env snapshot of a state, with compiled
and tests optional; the code reads them with .get defaults. -/
structure EnvSnap where
  compiled : Option Bool
  tests : Option TestsSnap
  deriving DecidableEq, Repr

/-- Python env.get("compiled", False). -/
def envCompiled (e : EnvSnap) : Bool :=
  e.compiled.getD false

/-- Python env.get("tests", \x7b\x7d).get("passed", 0). -/
def envPassed (e : EnvSnap) : Int :=
  match e.tests with
  | some t => t.passed.getD 0
  | Option.none => 0

/-- Modelled from the spec: one recorded state (the schema module is
external): timestep index, optional timestamp, optional tagged action
dict, attribution entries of arbitrary shape, env snapshot. -/
structure State where
  timestep : Nat
  timestamp_ms : TsVal
  action : Option PyDict
  attribution : List PyVal
  env : EnvSnap

/-- Modelled from the spec: one recorded episode (the schema module is
external): identifiers, absolute timing bounds, ordered states. -/
structure Episode where
  episode_id : String
  problem_id : String
  start_time : Int
  end_time : Int
  states : List State

/-- The closed action-kind enumeration of src.api.datatypes (external
module); member names as used by telemetry.py. -/
inductive ActionIndex where
  | NO_OP
  | FILL_PARTIAL_LINE
  | REPLACE_AND_APPEND_SINGLE_LINE
  | REPLACE_AND_APPEND_MULTI_LINE
  | EDIT_EXISTING_LINES
  | EXPLAIN_SINGLE_LINES
  | EXPLAIN_MULTI_LINE
  deriving DecidableEq, Repr

/-- Enumeration order of ActionIndex, as iterated by the dict
comprehensions of the classifier. -/
def allKinds : List ActionIndex :=
  [ActionIndex.NO_OP, ActionIndex.FILL_PARTIAL_LINE,
   ActionIndex.REPLACE_AND_APPEND_SINGLE_LINE,
   ActionIndex.REPLACE_AND_APPEND_MULTI_LINE,
   ActionIndex.EDIT_EXISTING_LINES, ActionIndex.EXPLAIN_SINGLE_LINES,
   ActionIndex.EXPLAIN_MULTI_LINE]

/-- Modelled from the spec: the string values of the ActionIndex
enumeration (datatypes module external); the spec scenario fixes
edit_existing_lines, the rest follow the same naming convention.
Python ActionIndex(v) raises ValueError on an unknown value and
TypeError on an unhashable one; both map to Option.none here, they are
caught together in the classifier. -/
def ActionIndex.ofPyVal : PyVal → Option ActionIndex
  | PyVal.str "no_op" => some ActionIndex.NO_OP
  | PyVal.str "fill_partial_line" => some ActionIndex.FILL_PARTIAL_LINE
  | PyVal.str "replace_and_append_single_line" =>
      some ActionIndex.REPLACE_AND_APPEND_SINGLE_LINE
  | PyVal.str "replace_and_append_multi_line" =>
      some ActionIndex.REPLACE_AND_APPEND_MULTI_LINE
  | PyVal.str "edit_existing_lines" => some ActionIndex.EDIT_EXISTING_LINES
  | PyVal.str "explain_single_lines" => some ActionIndex.EXPLAIN_SINGLE_LINES
  | PyVal.str "explain_multi_line" => some ActionIndex.EXPLAIN_MULTI_LINE
  | _ => Option.none

/-- Embedding of _is_assistant_action: the action dict is assistant
attributed when its A key holds a value other than None. -/
def _is_assistant_action : Option PyDict → Bool
  | Option.none => false
  | some d => ¬(pyGet d "A").isNone

/-- Embedding of _get_cursor_line_from_attribution, loop body: scan the
entries in order; a dict entry with a cursor key yields either the raw
line value, or the line estimated from a character offset (TypeError on
a non-numeric offset); every other entry is passed over. -/
def cursorScan : List PyVal → Except PyError (Option PyVal)
  | [] => Except.ok Option.none
  | attr :: rest =>
      match attr with
      | PyVal.dict fs =>
          match lookupField fs "cursor" with
          | some cursorInfo =>
              match cursorInfo with
              | PyVal.dict cfs =>
                  match lookupField cfs "line" with
                  | some lineVal => Except.ok (some lineVal)
                  | Option.none =>
                      match lookupField cfs "char" with
                      | some _ =>
                          match asNum (pyGetD cfs "char" (PyVal.int 0)) with
                          | some c =>
                              Except.ok (some (PyVal.int (max 1 (Int.fdiv c 80))))
                          | Option.none => Except.error PyError.typeError
                      | Option.none => cursorScan rest
              | _ => cursorScan rest
          | Option.none => cursorScan rest
      | _ => cursorScan rest

/-- Embedding of _get_cursor_line_from_attribution: an empty attribution
list yields None up front, otherwise the entries are scanned in order. -/
def _get_cursor_line_from_attribution (attribution : List PyVal) :
    Except PyError (Option PyVal) :=
  if attribution.isEmpty then Except.ok Option.none
  else cursorScan attribution

/-- Python abs(a - b) on two dynamically typed operands: TypeError unless
both are numbers. -/
def pyAbsSub (a b : PyVal) : Except PyError Int :=
  match asNum a, asNum b with
  | some x, some y => Except.ok (x - y).natAbs
  | _, _ => Except.error PyError.typeError

/-- Embedding of _calculate_cursor_distance: a falsy action (None or the
empty dict) gives 0; target_line is read from the top level of the
action dict with default 1; a missing cursor gives 0; otherwise the
absolute difference. -/
def _calculate_cursor_distance (s : State) : Except PyError Int :=
  match s.action with
  | Option.none => Except.ok 0
  | some [] => Except.ok 0
  | some d =>
      let target_line := pyGetD d "target_line" (PyVal.int 1)
      match _get_cursor_line_from_attribution s.attribution with
      | Except.error e => Except.error e
      | Except.ok Option.none => Except.ok 0
      | Except.ok (some cursor_line) => pyAbsSub target_line cursor_line

/-- A count mapping keyed by action kinds, as a field list in insertion
order, mirroring a Python dict built by comprehension over the enum. -/
abbrev CountMap := List (ActionIndex × Nat)

/-- The zero-initialized count mapping over every enumerated kind. -/
def initCounts : CountMap := allKinds.map (fun k => (k, 0))

/-- Python m[k] += 1 on a dict whose keys are fixed: bump the value
stored under k, leave all other entries alone. -/
def incrCount (m : CountMap) (k : ActionIndex) : CountMap :=
  m.map (fun p => if p.1 = k then (p.1, p.2 + 1) else p)

/-- Lookup in a count mapping, first match. -/
def findCount : CountMap → ActionIndex → Option Nat
  | [], _ => Option.none
  | (k, n) :: rest, key => if k = key then some n else findCount rest key

/-- Python m[k] on a count mapping whose keys are always present. -/
def countOf (m : CountMap) (k : ActionIndex) : Nat :=
  (findCount m k).getD 0

/-- The dict returned by _compute_action_statistics. -/
structure ActionStats where
  assistant_actions : CountMap
  human_actions : CountMap
  edit_existing_distances : List Int
  explain_single_distances : List Int
  explain_multi_distances : List Int
  deriving DecidableEq, Repr

/-- The initial accumulator of the classifier loop. -/
def initStats : ActionStats :=
  { assistant_actions := initCounts, human_actions := initCounts,
    edit_existing_distances := [], explain_single_distances := [],
    explain_multi_distances := [] }

/-- Embedding of lines 144 to 148 of telemetry.py: read the nested type
field from the matching tagged branch; .get on a non-dict branch raises
AttributeError, outside the try block of the loop. -/
def extractActionType (d : PyDict) : Except PyError PyVal :=
  if _is_assistant_action (some d) then pyAttrGet (pyGet d "A") "type"
  else pyAttrGet (pyGet d "H") "type"

/-- The three kinds whose actions get a cursor distance recorded. -/
def isDistanceKind (k : ActionIndex) : Bool :=
  match k with
  | ActionIndex.EDIT_EXISTING_LINES => true
  | ActionIndex.EXPLAIN_SINGLE_LINES => true
  | ActionIndex.EXPLAIN_MULTI_LINE => true
  | _ => false

/-- Append a computed distance to the list of its kind. -/
def appendDistance (st : ActionStats) (k : ActionIndex) (dist : Int) :
    ActionStats :=
  match k with
  | ActionIndex.EDIT_EXISTING_LINES =>
      { st with edit_existing_distances := st.edit_existing_distances ++ [dist] }
  | ActionIndex.EXPLAIN_SINGLE_LINES =>
      { st with explain_single_distances := st.explain_single_distances ++ [dist] }
  | ActionIndex.EXPLAIN_MULTI_LINE =>
      { st with explain_multi_distances := st.explain_multi_distances ++ [dist] }
  | _ => st

/-- The counter bump of lines 152 to 155: the assistant counter of the
kind when the action is assistant attributed, the human one
otherwise. -/
def incrFor (st : ActionStats) (is_assistant : Bool) (k : ActionIndex) :
    ActionStats :=
  if is_assistant then
    { st with assistant_actions := incrCount st.assistant_actions k }
  else
    { st with human_actions := incrCount st.human_actions k }

/-- One iteration of the classifier loop over a state: skip a None
action; extract the tagged type (AttributeError propagates, it is
raised before the try block); an unknown or unhashable type value is a
caught ValueError or TypeError, the state is skipped; otherwise the
counter is bumped first, and a TypeError inside the distance
computation is caught after that increment, dropping only the list
append. -/
def stepState (st : ActionStats) (s : State) : Except PyError ActionStats :=
  match s.action with
  | Option.none => Except.ok st
  | some d =>
      let is_assistant := _is_assistant_action (some d)
      match extractActionType d with
      | Except.error e => Except.error e
      | Except.ok tv =>
          match ActionIndex.ofPyVal tv with
          | Option.none => Except.ok st
          | some k =>
              let st1 := incrFor st is_assistant k
              if isDistanceKind k then
                match _calculate_cursor_distance s with
                | Except.ok dist => Except.ok (appendDistance st1 k dist)
                | Except.error _ => Except.ok st1
              else Except.ok st1

/-- The classifier loop over the state list. -/
def statsAux : ActionStats → List State → Except PyError ActionStats
  | st, [] => Except.ok st
  | st, s :: rest =>
      match stepState st s with
      | Except.error e => Except.error e
      | Except.ok st2 => statsAux st2 rest

/-- Embedding of _compute_action_statistics. -/
def _compute_action_statistics (episode : Episode) :
    Except PyError ActionStats :=
  statsAux initStats episode.states

/-- The dict returned by _compute_regression_rates; Python true division
is embedded as exact rational division. -/
structure RegRates where
  test_regression_rate : ℚ
  compile_regression_rate : ℚ
  test_progression_rate : ℚ
  compile_progression_rate : ℚ
  deriving DecidableEq, Repr

/-- The consecutive state pairs visited by the loops over index i from 1
to the length, as (previous, current). -/
def transitionPairs (states : List State) : List (State × State) :=
  states.zip states.tail

/-- A pair previously compiled and now not. -/
def isCompileRegression (p : State × State) : Bool :=
  envCompiled p.1.env && !envCompiled p.2.env

/-- A pair previously not compiled and now compiled. -/
def isCompileProgression (p : State × State) : Bool :=
  !envCompiled p.1.env && envCompiled p.2.env

/-- A pair whose passed-test count strictly decreases. -/
def isTestRegression (p : State × State) : Bool :=
  envPassed p.2.env < envPassed p.1.env

/-- A pair whose passed-test count strictly increases. -/
def isTestProgression (p : State × State) : Bool :=
  envPassed p.1.env < envPassed p.2.env

/-- Embedding of _compute_regression_rates: with fewer than two states
all four rates are 0.0; otherwise each is its count over
max(total transitions, 1). -/
def _compute_regression_rates (episode : Episode) : RegRates :=
  if episode.states.length < 2 then
    { test_regression_rate := 0, compile_regression_rate := 0,
      test_progression_rate := 0, compile_progression_rate := 0 }
  else
    let pairs := transitionPairs episode.states
    let total_transitions := pairs.length
    let denom : ℚ := (max total_transitions 1 : ℕ)
    { test_regression_rate := (pairs.countP isTestRegression : ℕ) / denom,
      compile_regression_rate := (pairs.countP isCompileRegression : ℕ) / denom,
      test_progression_rate := (pairs.countP isTestProgression : ℕ) / denom,
      compile_progression_rate := (pairs.countP isCompileProgression : ℕ) / denom }

/-- The dict returned by _compute_latency_stats. -/
structure LatencyStats where
  p50_latency_ms : Int
  p90_latency_ms : Int
  p99_latency_ms : Int
  deriving DecidableEq, Repr

/-- Ordering of states by timestep, for the stable Python sorted with a
timestep key. -/
def stateLE (a b : State) : Prop := a.timestep ≤ b.timestep

instance : DecidableRel stateLE := fun a b => Nat.decLe a.timestep b.timestep

/-- Python sorted(states, key=timestep): a stable sort by timestep. -/
def sortByTimestep (states : List State) : List State :=
  List.insertionSort stateLE states

/-- The valid latency delta of a consecutive sorted pair: both timestamps
must be ints and the difference strictly positive. -/
def deltaOf (p : State × State) : Option Int :=
  match tsAsLatency p.1.timestamp_ms, tsAsLatency p.2.timestamp_ms with
  | some prev_ts, some curr_ts =>
      if curr_ts - prev_ts > 0 then some (curr_ts - prev_ts) else Option.none
  | _, _ => Option.none

/-- The list of valid positive inter-state latency deltas, in sorted
state order. -/
def validDeltas (episode : Episode) : List Int :=
  (transitionPairs (sortByTimestep episode.states)).filterMap deltaOf

/-- Embedding of _compute_latency_stats: fewer than two states or no
valid delta gives all zeros; otherwise the sorted deltas are indexed at
the floor of n times 0.5, 0.9 and 0.99 (the float products are exact at
these magnitudes, so the floors are the rational ones). -/
def _compute_latency_stats (episode : Episode) : LatencyStats :=
  if episode.states.length < 2 then
    { p50_latency_ms := 0, p90_latency_ms := 0, p99_latency_ms := 0 }
  else
    let latencies := validDeltas episode
    if latencies.isEmpty then
      { p50_latency_ms := 0, p90_latency_ms := 0, p99_latency_ms := 0 }
    else
      let sortedLat := List.insertionSort (fun a b : Int => a ≤ b) latencies
      let n := sortedLat.length
      { p50_latency_ms := if 0 < n then sortedLat.getD (n / 2) 0 else 0,
        p90_latency_ms := if 0 < n then sortedLat.getD (9 * n / 10) 0 else 0,
        p99_latency_ms := if 0 < n then sortedLat.getD (99 * n / 100) 0 else 0 }

/-- The external collaborators of the record assembler and the reporter,
passed in as one environment value: the report timestamp, the version
string, the outcome of reading and parsing the identity key map file,
the dataset lookup (modelled from the spec: _load_problem is external
and yields the problem record or nothing), the outcome of the public IP
lookup, the kill-switch flag and the transport outcome. -/
structure TelemetryEnv where
  nowIso : String
  codeassistVersion : String
  userKeyMapRead : Except PyError PyVal
  problemLookup : String → Option PyDict
  ipResult : Except PyError String
  telemetryDisabled : Bool
  postResult : Except PyError Unit

/-- Embedding of get_user_id: a failed file read or parse propagates (no
try block there); an empty mapping gives the sentinel unknown; otherwise
the nested account address of the first entry is read with bare
indexing, which can raise KeyError or TypeError. -/
def get_user_id (readResult : Except PyError PyVal) : Except PyError PyVal :=
  match readResult with
  | Except.error e => Except.error e
  | Except.ok v =>
      match v with
      | PyVal.dict [] => Except.ok (PyVal.str "unknown")
      | PyVal.dict ((_, v0) :: _) => do
          let u ← pyIndex v0 "user"
          pyIndex u "accountAddress"
      | _ => Except.error PyError.attributeError

/-- Embedding of _load_problem_question_id over the external dataset
lookup: a missing or falsy problem record gives nothing; isinstance int
also admits bools in Python. -/
def _load_problem_question_id (lookup : String → Option PyDict)
    (problem_id : String) : Option Int :=
  match lookup problem_id with
  | some problem =>
      if problem.isEmpty then Option.none
      else
        match pyGet problem "question_id" with
        | PyVal.int n => some n
        | PyVal.bool b => some (if b then 1 else 0)
        | _ => Option.none
  | Option.none => Option.none

/-- Python max(states, key=timestep): the first state among those of
maximal timestep, nothing on an empty list. -/
def argmaxTimestep (states : List State) : Option State :=
  match states with
  | [] => Option.none
  | s :: rest =>
      some (rest.foldl (fun best x =>
        if best.timestep < x.timestep then x else best) s)

/-- The pass condition of a state: compiled and at least one passed
test. -/
def passPred (s : State) : Bool :=
  envCompiled s.env && envPassed s.env > 0

/-- The flat output record assembled once per episode. -/
structure EpisodeSession where
  timestamp : String
  duration_ms : Int
  total_turns : Nat
  user_id : PyVal
  question_id : Option Int
  ip_addr : Option String
  codeassist_version : String
  success : Bool
  time_to_pass : Option Int
  turns_to_pass : Option Nat
  test_regression_rate : ℚ
  compile_regression_rate : ℚ
  test_progression_rate : ℚ
  compile_progression_rate : ℚ
  p50_latency_ms : Int
  p90_latency_ms : Int
  p99_latency_ms : Int
  assistant_noop_count : Nat
  assistant_fill_partial_count : Nat
  assistant_write_single_count : Nat
  assistant_write_multi_count : Nat
  assistant_edit_existing_count : Nat
  assistant_explain_single_count : Nat
  assistant_explain_multi_count : Nat
  human_noop_count : Nat
  human_fill_partial_count : Nat
  human_write_single_count : Nat
  human_write_multi_count : Nat
  human_edit_existing_count : Nat
  human_explain_single_count : Nat
  human_explain_multi_count : Nat
  episode_id : String

/-- Embedding of convert_episode_session_to_telemetry_event: identity
resolution first (its errors propagate), then dataset and IP lookups
(the IP call alone sits in a try and degrades to nothing), success from
the maximal-timestep state, first-pass detection over timestep-sorted
states (int of a null or non-numeric timestamp raises), then the three
statistics computations (classifier errors propagate) and the pure
merge. -/
def convert_episode_session_to_telemetry_event (env : TelemetryEnv)
    (episode : Episode) : Except PyError EpisodeSession :=
  let duration_ms := episode.end_time - episode.start_time
  let total_turns := episode.states.length
  match get_user_id env.userKeyMapRead with
  | Except.error e => Except.error e
  | Except.ok user_id =>
    let question_id := _load_problem_question_id env.problemLookup episode.problem_id
    let ip_addr := match env.ipResult with
      | Except.ok s => some s
      | Except.error _ => Option.none
    let final_state := argmaxTimestep episode.states
    let success := match final_state with
      | some fs => passPred fs
      | Option.none => false
    let firstPass := match final_state with
      | some _ => (sortByTimestep episode.states).find? passPred
      | Option.none => Option.none
    match (match firstPass with
           | some s =>
               match tsForPass s.timestamp_ms with
               | Except.error e => Except.error e
               | Except.ok t =>
                   Except.ok (some (max 0 (t - episode.start_time)), some s.timestep)
           | Option.none =>
               (Except.ok (Option.none, Option.none) :
                 Except PyError (Option Int × Option Nat))) with
    | Except.error e => Except.error e
    | Except.ok (time_to_pass, turns_to_pass) =>
      match _compute_action_statistics episode with
      | Except.error e => Except.error e
      | Except.ok action_stats =>
        let rates := _compute_regression_rates episode
        let lat := _compute_latency_stats episode
        Except.ok
          { timestamp := env.nowIso,
            duration_ms := duration_ms,
            total_turns := total_turns,
            user_id := user_id,
            question_id := question_id,
            ip_addr := ip_addr,
            codeassist_version := env.codeassistVersion,
            success := success,
            time_to_pass := time_to_pass,
            turns_to_pass := turns_to_pass,
            test_regression_rate := rates.test_regression_rate,
            compile_regression_rate := rates.compile_regression_rate,
            test_progression_rate := rates.test_progression_rate,
            compile_progression_rate := rates.compile_progression_rate,
            p50_latency_ms := lat.p50_latency_ms,
            p90_latency_ms := lat.p90_latency_ms,
            p99_latency_ms := lat.p99_latency_ms,
            assistant_noop_count := countOf action_stats.assistant_actions ActionIndex.NO_OP,
            assistant_fill_partial_count := countOf action_stats.assistant_actions ActionIndex.FILL_PARTIAL_LINE,
            assistant_write_single_count := countOf action_stats.assistant_actions ActionIndex.REPLACE_AND_APPEND_SINGLE_LINE,
            assistant_write_multi_count := countOf action_stats.assistant_actions ActionIndex.REPLACE_AND_APPEND_MULTI_LINE,
            assistant_edit_existing_count := countOf action_stats.assistant_actions ActionIndex.EDIT_EXISTING_LINES,
            assistant_explain_single_count := countOf action_stats.assistant_actions ActionIndex.EXPLAIN_SINGLE_LINES,
            assistant_explain_multi_count := countOf action_stats.assistant_actions ActionIndex.EXPLAIN_MULTI_LINE,
            human_noop_count := countOf action_stats.human_actions ActionIndex.NO_OP,
            human_fill_partial_count := countOf action_stats.human_actions ActionIndex.FILL_PARTIAL_LINE,
            human_write_single_count := countOf action_stats.human_actions ActionIndex.REPLACE_AND_APPEND_SINGLE_LINE,
            human_write_multi_count := countOf action_stats.human_actions ActionIndex.REPLACE_AND_APPEND_MULTI_LINE,
            human_edit_existing_count := countOf action_stats.human_actions ActionIndex.EDIT_EXISTING_LINES,
            human_explain_single_count := countOf action_stats.human_actions ActionIndex.EXPLAIN_SINGLE_LINES,
            human_explain_multi_count := countOf action_stats.human_actions ActionIndex.EXPLAIN_MULTI_LINE,
            episode_id := episode.episode_id }

/-- Embedding of push_telemetry_event_session: the kill switch returns
early; the record assembly runs outside any try block, so its errors
propagate; the transport call and status check sit inside a try whose
handler only logs, so any transport outcome returns normally. -/
def push_telemetry_event_session (env : TelemetryEnv) (episode : Episode) :
    Except PyError Unit :=
  if env.telemetryDisabled then Except.ok ()
  else
    match convert_episode_session_to_telemetry_event env episode with
    | Except.error e => Except.error e
    | Except.ok _session =>
        match env.postResult with
        | Except.ok _ => Except.ok ()
        | Except.error _ => Except.ok ()

/-- Total of all counters of a count mapping. -/
def sumCounts (m : CountMap) : Nat := (m.map Prod.snd).sum

/-- Key list of a count mapping. -/
def keysOf (m : CountMap) : List ActionIndex := m.map Prod.fst

/-- Whether the action of a state classifies successfully: a non-null
action whose tagged type extracts without error and coerces to an
ActionIndex value. -/
def classifiedOk (s : State) : Bool :=
  match s.action with
  | Option.none => false
  | some d =>
      match extractActionType d with
      | Except.error _ => false
      | Except.ok tv => (ActionIndex.ofPyVal tv).isSome

/-- An attribution entry that the claim describes as skipped: not a
dict, or holding a cursor value that is not a dict or is a dict with
neither a line nor a char field. -/
def skipsAttr : PyVal → Bool
  | PyVal.dict fs =>
      match lookupField fs "cursor" with
      | some (PyVal.dict cfs) =>
          (lookupField cfs "line").isNone && (lookupField cfs "char").isNone
      | some _ => true
      | Option.none => false
  | _ => true

/-- An environment where every external lookup behaves: empty identity
mapping, no dataset record, failing IP lookup, telemetry enabled. -/
def envOk : TelemetryEnv :=
  { nowIso := "2026-01-01T00:00:00+00:00", codeassistVersion := "unknown",
    userKeyMapRead := Except.ok (PyVal.dict []),
    problemLookup := fun _ => Option.none,
    ipResult := Except.error PyError.ioError,
    telemetryDisabled := false,
    postResult := Except.ok () }

/-- An environment whose identity key map file is unreadable. -/
def envBadIdentity : TelemetryEnv :=
  { envOk with userKeyMapRead := Except.error PyError.ioError }

/-- An env snapshot with both fields present. -/
def mkEnvSnap (c : Bool) (p : Int) : EnvSnap :=
  { compiled := some c, tests := some { passed := some p } }

/-- The state of the spec scenario of the cursor distance: an assistant
edit_existing_lines action with target_line 10 inside the A branch, and
an attribution entry with cursor line 7. -/
def stScenario : State :=
  { timestep := 0, timestamp_ms := TsVal.num 0,
    action := some [("A", PyVal.dict
      [("type", PyVal.str "edit_existing_lines"), ("target_line", PyVal.int 10)])],
    attribution := [PyVal.dict [("cursor", PyVal.dict [("line", PyVal.int 7)])]],
    env := { compiled := some false, tests := Option.none } }

/-- The one-state episode of the cursor-distance scenario. -/
def epScenario : Episode :=
  { episode_id := "e1", problem_id := "p", start_time := 0, end_time := 0,
    states := [stScenario] }

/-- A state whose non-null action has neither an A nor an H branch. -/
def stNoBranch : State :=
  { timestep := 0, timestamp_ms := TsVal.missing,
    action := some [("X", PyVal.int 1)], attribution := [],
    env := mkEnvSnap false 0 }

/-- The one-state episode around stNoBranch. -/
def epNoBranch : Episode :=
  { episode_id := "e3", problem_id := "p", start_time := 0, end_time := 0,
    states := [stNoBranch] }

/-- A passing state whose timestamp_ms is null. -/
def stNullTs : State :=
  { timestep := 0, timestamp_ms := TsVal.null, action := Option.none,
    attribution := [], env := mkEnvSnap true 1 }

/-- The one-state episode around stNullTs. -/
def epNullTs : Episode :=
  { episode_id := "e4", problem_id := "p", start_time := 0, end_time := 0,
    states := [stNullTs] }

/-- An episode with no states at all. -/
def epEmpty : Episode :=
  { episode_id := "e0", problem_id := "p", start_time := 3, end_time := 9,
    states := [] }

/-- The first state of the three-state spec scenario. -/
def stA : State :=
  { timestep := 0, timestamp_ms := TsVal.num 0, action := Option.none,
    attribution := [], env := mkEnvSnap false 0 }

/-- The second state of the three-state spec scenario. -/
def stB : State :=
  { timestep := 1, timestamp_ms := TsVal.num 100, action := Option.none,
    attribution := [], env := mkEnvSnap true 0 }

/-- The third state of the three-state spec scenario. -/
def stC : State :=
  { timestep := 2, timestamp_ms := TsVal.num 250, action := Option.none,
    attribution := [], env := mkEnvSnap true 1 }

/-- The three-state spec scenario episode, started at absolute time 0. -/
def epThree : Episode :=
  { episode_id := "e6", problem_id := "p", start_time := 0, end_time := 250,
    states := [stA, stB, stC] }

/-- A state with a nonempty action and an attribution list whose single
entry is not a dict. -/
def stNoCursor : State :=
  { timestep := 0, timestamp_ms := TsVal.missing,
    action := some [("A", PyVal.dict [("type", PyVal.str "no_op")])],
    attribution := [PyVal.int 5], env := mkEnvSnap false 0 }

/-- C1: on the spec scenario state, the classifier does increment the
assistant EDIT_EXISTING_LINES counter, but it records a cursor distance
of 6, not 3: target_line is read from the top level of the action dict,
where only the A tag lives, so the default 1 applies and the distance
is the absolute value of 1 minus 7. -/
theorem edit_distance_scenario_code_eval :
    (_compute_action_statistics epScenario).map (fun st =>
      (countOf st.assistant_actions ActionIndex.EDIT_EXISTING_LINES,
       st.edit_existing_distances)) = Except.ok (1, [6]) := by
  rfl

/-- C2: with telemetry enabled and the identity key map file unreadable,
push_telemetry_event_session propagates the read error to its caller
instead of returning normally: get_user_id runs outside every try
block. -/
theorem push_propagates_identity_read_error :
    push_telemetry_event_session envBadIdentity epThree =
      Except.error PyError.ioError := by
  rfl

/-- C3: a state with a non-null action whose tagged branch is missing is
not skipped: the nested type extraction runs before the try block and
raises AttributeError, which propagates out of the classifier. -/
theorem classifier_raises_on_missing_tagged_branch :
    _compute_action_statistics epNoBranch =
      Except.error PyError.attributeError := by
  rfl

/-- C4: a first-passing state whose timestamp_ms is null is not treated
as timestamp 0: int of None raises TypeError, which propagates out of
the record assembly. -/
theorem time_to_pass_raises_on_null_timestamp :
    (convert_episode_session_to_telemetry_event envOk epNullTs).map
      (fun r => r.time_to_pass) = Except.error PyError.typeError := by
  rfl

/-- C6: on the three-state spec scenario episode started at time 0, the
pipeline yields compile progression rate one half, test progression
rate one half, success, turns_to_pass 2 and time_to_pass 250. -/
theorem three_state_scenario_fields :
    (convert_episode_session_to_telemetry_event envOk epThree).map (fun r =>
      (r.compile_progression_rate, r.test_progression_rate, r.success,
       r.turns_to_pass, r.time_to_pass)) =
    Except.ok (1 / 2, 1 / 2, true, some 2, some 250) := by
  rfl

/-- C5: with zero states the assembled record has zero turns, all four
rates zero, all three percentiles zero, success false and both pass
fields null, whatever the environment does. -/
theorem empty_episode_record_fields (env : TelemetryEnv) (e : Episode)
    (h : e.states = []) :
    (convert_episode_session_to_telemetry_event env e).map (fun r =>
      (r.total_turns, r.test_regression_rate, r.compile_regression_rate,
       r.test_progression_rate, r.compile_progression_rate,
       r.p50_latency_ms, r.p90_latency_ms, r.p99_latency_ms,
       r.success, r.time_to_pass, r.turns_to_pass)) =
    (convert_episode_session_to_telemetry_event env e).map (fun _ =>
      (0, 0, 0, 0, 0, 0, 0, 0, false, Option.none, Option.none)) := by
  obtain ⟨eid, pid, stt, ent, sts⟩ := e
  subst h
  unfold convert_episode_session_to_telemetry_event
  cases get_user_id env.userKeyMapRead <;> rfl

/-- Witness for C5 at a concrete empty episode and environment. -/
theorem empty_episode_record_fields_witness :
    epEmpty.states = [] ∧
    (convert_episode_session_to_telemetry_event envOk epEmpty).map (fun r =>
      (r.total_turns, r.test_regression_rate, r.compile_regression_rate,
       r.test_progression_rate, r.compile_progression_rate,
       r.p50_latency_ms, r.p90_latency_ms, r.p99_latency_ms,
       r.success, r.time_to_pass, r.turns_to_pass)) =
    (convert_episode_session_to_telemetry_event envOk epEmpty).map (fun _ =>
      (0, 0, 0, 0, 0, 0, 0, 0, false, Option.none, Option.none)) :=
  ⟨rfl, empty_episode_record_fields envOk epEmpty rfl⟩

/-- Helper: the early empty-list return of the cursor scan coincides
with the loop itself. -/
theorem getCursor_eq_scan (l : List PyVal) :
    _get_cursor_line_from_attribution l = cursorScan l := by
  cases l <;> rfl

/-- C10: a skippable attribution entry (not a dict, or a cursor value
that is not a dict or has neither a line nor a char field) leaves the
scan result unchanged, and when no entry yields a cursor line the
computed distance is 0 with no error. -/
theorem cursor_scan_skips_and_defaults :
    (∀ (a : PyVal) (rest : List PyVal), skipsAttr a = true →
      _get_cursor_line_from_attribution (a :: rest) =
        _get_cursor_line_from_attribution rest) ∧
    (∀ s : State,
      _get_cursor_line_from_attribution s.attribution = Except.ok Option.none →
      _calculate_cursor_distance s = Except.ok 0) := by
  constructor
  · intro a rest hskip
    rw [getCursor_eq_scan, getCursor_eq_scan]
    cases a with
    | dict fs =>
        cases hcur : lookupField fs "cursor" with
        | none =>
            simp only [skipsAttr, hcur] at hskip
            exact absurd hskip Bool.false_ne_true
        | some c =>
            cases c with
            | dict cfs =>
                simp only [skipsAttr, hcur, Bool.and_eq_true,
                  Option.isNone_iff_eq_none] at hskip
                simp only [cursorScan, hcur, hskip.1, hskip.2]
            | none => simp only [cursorScan, hcur]
            | bool b => simp only [cursorScan, hcur]
            | int n => simp only [cursorScan, hcur]
            | str s => simp only [cursorScan, hcur]
            | list xs => simp only [cursorScan, hcur]
    | none => rfl
    | bool b => rfl
    | int n => rfl
    | str s => rfl
    | list xs => rfl
  · intro s hnone
    obtain ⟨ts, tms, act, attr, envv⟩ := s
    cases act with
    | none => rfl
    | some d =>
        cases d with
        | nil => rfl
        | cons f fs =>
            unfold _calculate_cursor_distance
            dsimp only at hnone ⊢
            rw [hnone]

/-- Witness for C10 at a non-dict entry and at a state whose attribution
never yields a cursor. -/
theorem cursor_scan_skips_and_defaults_witness :
    (skipsAttr (PyVal.int 5) = true ∧
     _get_cursor_line_from_attribution [PyVal.int 5] =
       _get_cursor_line_from_attribution []) ∧
    (_get_cursor_line_from_attribution stNoCursor.attribution =
       Except.ok Option.none ∧
     _calculate_cursor_distance stNoCursor = Except.ok 0) :=
  ⟨⟨rfl, cursor_scan_skips_and_defaults.1 (PyVal.int 5) [] rfl⟩,
   ⟨rfl, cursor_scan_skips_and_defaults.2 stNoCursor rfl⟩⟩

/-- Helper: bumping one counter never changes the key list. -/
theorem keysOf_incrCount (m : CountMap) (k : ActionIndex) :
    keysOf (incrCount m k) = keysOf m := by
  induction m with
  | nil => rfl
  | cons p rest ih =>
      simp only [incrCount, keysOf, List.map_cons, List.map_map] at ih ⊢
      rw [ih]
      congr 1
      split <;> rfl

/-- Helper: bumping one counter adds to the total once per occurrence of
the key. -/
theorem sumCounts_incrCount (m : CountMap) (k : ActionIndex) :
    sumCounts (incrCount m k) =
      sumCounts m + (keysOf m).countP (fun x => decide (x = k)) := by
  induction m with
  | nil => rfl
  | cons p rest ih =>
      obtain ⟨k1, n1⟩ := p
      simp only [incrCount, sumCounts, keysOf, List.map_cons, List.sum_cons,
        List.countP_cons] at ih ⊢
      by_cases hk : k1 = k
      · subst hk
        simp at ih ⊢
        omega
      · simp [hk] at ih ⊢
        omega

/-- Helper: every enumerated kind occurs exactly once in the key
enumeration. -/
theorem count_allKinds (k : ActionIndex) :
    allKinds.countP (fun x => decide (x = k)) = 1 := by
  cases k <;> rfl

/-- Helper: a key present in the key list is found. -/
theorem findCount_isSome (m : CountMap) (k : ActionIndex)
    (h : k ∈ keysOf m) : (findCount m k).isSome = true := by
  induction m with
  | nil => simp [keysOf] at h
  | cons p rest ih =>
      obtain ⟨k1, n1⟩ := p
      simp only [keysOf, List.map_cons, List.mem_cons] at h
      simp only [findCount]
      by_cases hk : k1 = k
      · simp [hk]
      · rw [if_neg hk]
        exact ih (h.resolve_left (fun he => hk he.symm))

/-- Helper: the counter bump keeps both key lists complete and adds one
to the combined total. -/
theorem incrFor_spec (st : ActionStats) (b : Bool) (k : ActionIndex)
    (ha : keysOf st.assistant_actions = allKinds)
    (hh : keysOf st.human_actions = allKinds) :
    keysOf (incrFor st b k).assistant_actions = allKinds ∧
    keysOf (incrFor st b k).human_actions = allKinds ∧
    sumCounts (incrFor st b k).assistant_actions +
        sumCounts (incrFor st b k).human_actions =
      sumCounts st.assistant_actions + sumCounts st.human_actions + 1 := by
  cases b with
  | true =>
      have he : incrFor st true k =
          { st with assistant_actions := incrCount st.assistant_actions k } :=
        rfl
      rw [he]
      refine ⟨?_, hh, ?_⟩
      · rw [keysOf_incrCount]; exact ha
      · show sumCounts (incrCount st.assistant_actions k) +
            sumCounts st.human_actions = _
        rw [sumCounts_incrCount, ha, count_allKinds]
        omega
  | false =>
      have he : incrFor st false k =
          { st with human_actions := incrCount st.human_actions k } := rfl
      rw [he]
      refine ⟨ha, ?_, ?_⟩
      · rw [keysOf_incrCount]; exact hh
      · show sumCounts st.assistant_actions +
            sumCounts (incrCount st.human_actions k) = _
        rw [sumCounts_incrCount, hh, count_allKinds]
        omega

/-- Helper: appending a distance never touches the assistant counters. -/
theorem appendDistance_assistant (st : ActionStats) (k : ActionIndex)
    (d : Int) :
    (appendDistance st k d).assistant_actions = st.assistant_actions := by
  cases k <;> rfl

/-- Helper: appending a distance never touches the human counters. -/
theorem appendDistance_human (st : ActionStats) (k : ActionIndex) (d : Int) :
    (appendDistance st k d).human_actions = st.human_actions := by
  cases k <;> rfl

/-- Helper: one classifier iteration keeps both key lists complete and
adds one to the combined total exactly when the state classifies. -/
theorem stepState_spec (st st2 : ActionStats) (s : State)
    (h : stepState st s = Except.ok st2)
    (ha : keysOf st.assistant_actions = allKinds)
    (hh : keysOf st.human_actions = allKinds) :
    keysOf st2.assistant_actions = allKinds ∧
    keysOf st2.human_actions = allKinds ∧
    sumCounts st2.assistant_actions + sumCounts st2.human_actions =
      sumCounts st.assistant_actions + sumCounts st.human_actions +
        (if classifiedOk s then 1 else 0) := by
  cases hact : s.action with
  | none =>
      simp only [stepState, hact] at h
      injection h with h2
      subst h2
      simp [classifiedOk, hact, ha, hh]
  | some d =>
      cases hext : extractActionType d with
      | error e =>
          simp only [stepState, hact, hext] at h
          exact Except.noConfusion h
      | ok tv =>
          cases hof : ActionIndex.ofPyVal tv with
          | none =>
              simp only [stepState, hact, hext, hof] at h
              injection h with h2
              subst h2
              simp [classifiedOk, hact, hext, hof, ha, hh]
          | some k =>
              have hclass : classifiedOk s = true := by
                simp [classifiedOk, hact, hext, hof]
              rw [hclass, if_pos rfl]
              simp only [stepState, hact, hext, hof] at h
              obtain ⟨K1, K2, HS⟩ :=
                incrFor_spec st (_is_assistant_action (some d)) k ha hh
              cases hda : isDistanceKind k with
              | false =>
                  rw [hda] at h
                  simp only [Bool.false_eq_true, if_false] at h
                  injection h with h2
                  subst h2
                  exact ⟨K1, K2, HS⟩
              | true =>
                  rw [hda] at h
                  simp only [if_pos rfl] at h
                  cases hdist : _calculate_cursor_distance s with
                  | error e2 =>
                      rw [hdist] at h
                      injection h with h2
                      subst h2
                      exact ⟨K1, K2, HS⟩
                  | ok dist =>
                      rw [hdist] at h
                      injection h with h2
                      subst h2
                      rw [appendDistance_assistant, appendDistance_human]
                      exact ⟨K1, K2, HS⟩

/-- Helper: the classifier loop preserves key completeness and counts
exactly the classified states. -/
theorem statsAux_spec (l : List State) : ∀ st stats : ActionStats,
    statsAux st l = Except.ok stats →
    keysOf st.assistant_actions = allKinds →
    keysOf st.human_actions = allKinds →
    keysOf stats.assistant_actions = allKinds ∧
    keysOf stats.human_actions = allKinds ∧
    sumCounts stats.assistant_actions + sumCounts stats.human_actions =
      sumCounts st.assistant_actions + sumCounts st.human_actions +
        (l.filter classifiedOk).length := by
  induction l with
  | nil =>
      intro st stats h ha hh
      simp only [statsAux] at h
      injection h with h2
      subst h2
      simp [ha, hh]
  | cons s rest ih =>
      intro st stats h ha hh
      simp only [statsAux] at h
      cases hstep : stepState st s with
      | error e =>
          simp only [hstep] at h
          exact Except.noConfusion h
      | ok st2 =>
          simp only [hstep] at h
          obtain ⟨k1, k2, hsum⟩ := stepState_spec st st2 s hstep ha hh
          obtain ⟨K1, K2, HS⟩ := ih st2 stats h k1 k2
          refine ⟨K1, K2, ?_⟩
          rw [HS, hsum, List.filter_cons]
          cases hc : classifiedOk s with
          | false =>
              simp only [hc, Bool.false_eq_true, if_false]
              omega
          | true =>
              simp only [hc, if_true, List.length_cons]
              omega

/-- C7: whenever the classifier completes, both count mappings hold an
entry for every enumerated kind, and the combined total over both
equals the number of states whose action classified successfully. -/
theorem action_counts_complete_and_sum (e : Episode) (stats : ActionStats)
    (h : _compute_action_statistics e = Except.ok stats) :
    (∀ k : ActionIndex,
      (findCount stats.assistant_actions k).isSome = true ∧
      (findCount stats.human_actions k).isSome = true) ∧
    sumCounts stats.assistant_actions + sumCounts stats.human_actions =
      (e.states.filter classifiedOk).length := by
  obtain ⟨K1, K2, HS⟩ := statsAux_spec e.states initStats stats h rfl rfl
  refine ⟨fun k => ⟨?_, ?_⟩, ?_⟩
  · exact findCount_isSome _ _ (by rw [K1]; cases k <;> decide)
  · exact findCount_isSome _ _ (by rw [K2]; cases k <;> decide)
  · rw [HS]
    show 0 + 0 + (e.states.filter classifiedOk).length =
      (e.states.filter classifiedOk).length
    omega

/-- Witness for C7 at the empty episode, whose classifier result is the
zero-initialized statistics value. -/
theorem action_counts_complete_and_sum_witness :
    _compute_action_statistics epEmpty = Except.ok initStats ∧
    ((∀ k : ActionIndex,
        (findCount initStats.assistant_actions k).isSome = true ∧
        (findCount initStats.human_actions k).isSome = true) ∧
      sumCounts initStats.assistant_actions +
          sumCounts initStats.human_actions =
        (epEmpty.states.filter classifiedOk).length) :=
  ⟨rfl, action_counts_complete_and_sum epEmpty initStats rfl⟩

/-- Helper: with fewer than two states there are no transition pairs. -/
theorem transitionPairs_short (l : List State) (h : l.length < 2) :
    transitionPairs l = [] := by
  cases l with
  | nil => rfl
  | cons a t =>
      cases t with
      | nil => rfl
      | cons b t2 => simp only [List.length_cons] at h; omega

/-- Helper: a transition is never both a compile regression and a
compile progression, so the two counts fit in the pair count
together. -/
theorem countP_compile_le (l : List (State × State)) :
    l.countP isCompileRegression + l.countP isCompileProgression ≤
      l.length := by
  induction l with
  | nil => simp
  | cons p rest ih =>
      simp only [List.countP_cons, List.length_cons]
      cases hreg : isCompileRegression p with
      | true =>
          have hprog : isCompileProgression p = false := by
            simp only [isCompileRegression, Bool.and_eq_true] at hreg
            simp [isCompileProgression, hreg.1]
          simp only [hprog, if_true, Bool.false_eq_true, if_false]
          omega
      | false =>
          cases hprog : isCompileProgression p with
          | true =>
              simp only [Bool.false_eq_true, if_false, if_true]
              omega
          | false =>
              simp only [Bool.false_eq_true, if_false]
              omega

/-- Helper: a count over at most t items divided by max(t, 1) lies in
the unit interval. -/
theorem rate_bounds (c t : ℕ) (h : c ≤ t) :
    0 ≤ (c : ℚ) / ((max t 1 : ℕ) : ℚ) ∧
    (c : ℚ) / ((max t 1 : ℕ) : ℚ) ≤ 1 := by
  have hone : 1 ≤ max t 1 := le_max_right t 1
  have hpos : (0 : ℚ) < ((max t 1 : ℕ) : ℚ) := by exact_mod_cast hone
  constructor
  · positivity
  · rw [div_le_one hpos]
    exact_mod_cast le_trans h (le_max_left t 1)

/-- Helper: two counts summing to at most t, each divided by max(t, 1),
sum to at most one. -/
theorem rate_add_le (c1 c2 t : ℕ) (h : c1 + c2 ≤ t) :
    (c1 : ℚ) / ((max t 1 : ℕ) : ℚ) + (c2 : ℚ) / ((max t 1 : ℕ) : ℚ) ≤ 1 := by
  have hone : 1 ≤ max t 1 := le_max_right t 1
  have hpos : (0 : ℚ) < ((max t 1 : ℕ) : ℚ) := by exact_mod_cast hone
  rw [div_add_div_same, div_le_one hpos]
  have : c1 + c2 ≤ max t 1 := le_trans h (le_max_left t 1)
  exact_mod_cast this

/-- C8: every rate lies in the unit interval, the two compile rates sum
to at most one, and each rate is its transition count divided by the
maximum of 1 and the number of consecutive-state transitions. -/
theorem regression_rates_bounded (e : Episode) :
    (0 ≤ (_compute_regression_rates e).test_regression_rate ∧
      (_compute_regression_rates e).test_regression_rate ≤ 1) ∧
    (0 ≤ (_compute_regression_rates e).compile_regression_rate ∧
      (_compute_regression_rates e).compile_regression_rate ≤ 1) ∧
    (0 ≤ (_compute_regression_rates e).test_progression_rate ∧
      (_compute_regression_rates e).test_progression_rate ≤ 1) ∧
    (0 ≤ (_compute_regression_rates e).compile_progression_rate ∧
      (_compute_regression_rates e).compile_progression_rate ≤ 1) ∧
    (_compute_regression_rates e).compile_regression_rate +
        (_compute_regression_rates e).compile_progression_rate ≤ 1 ∧
    (_compute_regression_rates e).test_regression_rate =
      ((transitionPairs e.states).countP isTestRegression : ℚ) /
        ((max (transitionPairs e.states).length 1 : ℕ) : ℚ) ∧
    (_compute_regression_rates e).compile_regression_rate =
      ((transitionPairs e.states).countP isCompileRegression : ℚ) /
        ((max (transitionPairs e.states).length 1 : ℕ) : ℚ) ∧
    (_compute_regression_rates e).test_progression_rate =
      ((transitionPairs e.states).countP isTestProgression : ℚ) /
        ((max (transitionPairs e.states).length 1 : ℕ) : ℚ) ∧
    (_compute_regression_rates e).compile_progression_rate =
      ((transitionPairs e.states).countP isCompileProgression : ℚ) /
        ((max (transitionPairs e.states).length 1 : ℕ) : ℚ) := by
  have hb1 := rate_bounds ((transitionPairs e.states).countP isTestRegression)
    (transitionPairs e.states).length (List.countP_le_length _)
  have hb2 := rate_bounds ((transitionPairs e.states).countP isCompileRegression)
    (transitionPairs e.states).length (List.countP_le_length _)
  have hb3 := rate_bounds ((transitionPairs e.states).countP isTestProgression)
    (transitionPairs e.states).length (List.countP_le_length _)
  have hb4 := rate_bounds ((transitionPairs e.states).countP isCompileProgression)
    (transitionPairs e.states).length (List.countP_le_length _)
  have hadd := rate_add_le ((transitionPairs e.states).countP isCompileRegression)
    ((transitionPairs e.states).countP isCompileProgression)
    (transitionPairs e.states).length (countP_compile_le _)
  by_cases hlen : e.states.length < 2
  · have hp : transitionPairs e.states = [] := transitionPairs_short e.states hlen
    simp only [_compute_regression_rates, if_pos hlen, hp, List.countP_nil,
      List.length_nil]
    norm_num
  · simp only [_compute_regression_rates, if_neg hlen]
    refine ⟨hb1, hb2, hb3, hb4, hadd, ?_, ?_, ?_, ?_⟩ <;> trivial

/-- Helper: indexing a sorted list with defaults is monotone in
in-range indices. -/
theorem sorted_getD_mono (l : List Int)
    (hs : List.Sorted (fun a b : Int => a ≤ b) l) (i j : ℕ)
    (hij : i ≤ j) (hj : j < l.length) : l.getD i 0 ≤ l.getD j 0 := by
  have hi : i < l.length := lt_of_le_of_lt hij hj
  rw [List.getD_eq_getElem l 0 hi, List.getD_eq_getElem l 0 hj]
  have := hs.rel_get_of_le (a := ⟨i, hi⟩) (b := ⟨j, hj⟩) (Fin.mk_le_mk.mpr hij)
  simpa using this

/-- C9: with a non-empty valid-delta set, the three reported latency
percentiles are monotone. -/
theorem latency_percentiles_monotone (e : Episode)
    (h : validDeltas e ≠ []) :
    (_compute_latency_stats e).p50_latency_ms ≤
        (_compute_latency_stats e).p90_latency_ms ∧
    (_compute_latency_stats e).p90_latency_ms ≤
        (_compute_latency_stats e).p99_latency_ms := by
  have hlen2 : ¬e.states.length < 2 := by
    intro hlt
    apply h
    unfold validDeltas
    rw [transitionPairs_short]
    · rfl
    · rw [sortByTimestep, List.length_insertionSort]
      exact hlt
  have hne : ¬(validDeltas e).isEmpty = true := by
    cases hl : validDeltas e with
    | nil => exact absurd hl h
    | cons a t => simp
  simp only [_compute_latency_stats, if_neg hlen2, if_neg hne]
  set L := List.insertionSort (fun a b : Int => a ≤ b) (validDeltas e) with hL
  have hsort : List.Sorted (fun a b : Int => a ≤ b) L :=
    List.sorted_insertionSort _ _
  have hlenL : L.length = (validDeltas e).length :=
    List.length_insertionSort _ _
  have hpos : 0 < L.length := by
    rw [hlenL]
    cases hl : validDeltas e with
    | nil => exact absurd hl h
    | cons a t => simp
  have h99 : 99 * L.length / 100 < L.length := by omega
  have h90 : 9 * L.length / 10 ≤ 99 * L.length / 100 := by omega
  have h50 : L.length / 2 ≤ 9 * L.length / 10 := by omega
  simp only [if_pos hpos]
  constructor
  · exact sorted_getD_mono L hsort _ _ h50 (lt_of_le_of_lt h90 h99)
  · exact sorted_getD_mono L hsort _ _ h90 h99

/-- Witness for C9 at the three-state scenario episode, whose valid
deltas are 100 and 150. -/
theorem latency_percentiles_monotone_witness :
    validDeltas epThree ≠ [] ∧
    ((_compute_latency_stats epThree).p50_latency_ms ≤
        (_compute_latency_stats epThree).p90_latency_ms ∧
      (_compute_latency_stats epThree).p90_latency_ms ≤
        (_compute_latency_stats epThree).p99_latency_ms) :=
  ⟨by decide, latency_percentiles_monotone epThree (by decide)⟩

end Telemetry
